import Mathlib

/-!
Shallow embedding of `src/lib/client.js` of the solr-node repository:
a Solr HTTP client exposing one method per Solr endpoint, with a dual
callback/promise calling convention, URL assembly from a configuration
record, and a single dispatch helper `_callSolrServer`.

JavaScript values are modelled by small inductive types; `undefined`
arguments appear as `Option.none` or a dedicated `undefined` constructor;
JS truthiness is made explicit where the source relies on it.
-/

namespace SolrNode

/-- A JSON value, the payload type of POST bodies and parsed responses. -/
inductive Json where
  | null : Json
  | bool (b : Bool) : Json
  | num (n : Int) : Json
  | str (s : String) : Json
  | arr (xs : List Json) : Json
  | obj (fields : List (String × Json)) : Json

/-- `Array.isArray(data)` on a modelled JS value. -/
def Json.isArr : Json → Bool
  | .arr _ => true
  | _ => false

/-- A JS value that is either a string or a number, used for the `port`
configuration field, whose JSDoc type is `Number|String`. -/
inductive StrNum where
  | str (s : String) : StrNum
  | num (n : Int) : StrNum
  deriving Repr, DecidableEq

/-- JS truthiness of a string-or-number value: the empty string and 0 are falsy. -/
def StrNum.truthy : StrNum → Bool
  | .str s => s ≠ ""
  | .num n => n ≠ 0

/-- String interpolation of a string-or-number value, as JS `+` renders it. -/
def StrNum.render : StrNum → String
  | .str s => s
  | .num n => toString n

/-- JS truthiness of an optional string (an absent value is falsy, as is `""`). -/
def optTruthy : Option String → Bool
  | some s => s ≠ ""
  | none => false

/-- `a || d` for an optional string `a` and default `d`: the default is used
when the value is absent or falsy. -/
def jsOrStr (a : Option String) (d : String) : String :=
  match a with
  | some s => if s = "" then d else s
  | none => d

/-- The options object accepted by the `Client` constructor; every field is
optional (`undefined` when absent). -/
structure ClientOptions where
  host : Option String := none
  port : Option StrNum := none
  core : Option String := none
  rootPath : Option String := none
  protocol : Option String := none
  requestHandler : Option String := none
  user : Option String := none
  password : Option String := none
  deriving Repr, DecidableEq

/-- The configuration stored on `this.options` by the constructor. -/
structure ClientConfig where
  host : String
  port : StrNum
  core : String
  rootPath : String
  protocol : String
  requestHandler : String
  user : Option String
  password : Option String
  deriving Repr, DecidableEq

/-- `options.user && options.password`: the guard under which the
constructor stores credentials and `_makeHostUrl` emits the auth segment. -/
def bothCreds (user password : Option String) : Bool :=
  optTruthy user && optTruthy password

/-- The `Client` constructor: applies `||` defaults to each field and stores
the `user`/`password` pair only when both are truthy. -/
def mkClient (options : ClientOptions) : ClientConfig :=
  { host := jsOrStr options.host "127.0.0.1"
    port := match options.port with
      | some v => if v.truthy then v else .str "8983"
      | none => .str "8983"
    core := jsOrStr options.core ""
    rootPath := jsOrStr options.rootPath "solr"
    protocol := jsOrStr options.protocol "http"
    requestHandler := jsOrStr options.requestHandler "select"
    user := if bothCreds options.user options.password then options.user else none
    password := if bothCreds options.user options.password then options.password else none }

/-- The `auth` string computed inside `_makeHostUrl`: present only when both
`user` and `password` are truthy. -/
def authSegment (user password : Option String) : String :=
  if bothCreds user password then
    user.getD "" ++ ":" ++ password.getD "" ++ "@"
  else ""

/-- `Client.prototype._makeHostUrl(protocol, host, port, user, password)`. -/
def makeHostUrl (protocol host : String) (port : StrNum)
    (user password : Option String) : String :=
  let auth := authSegment user password
  if port.truthy then
    protocol ++ "://" ++ auth ++ host ++ ":" ++ port.render
  else
    protocol ++ "://" ++ auth ++ host

/-- The full request URL assembled by `_requestGet`/`_requestPost`:
host URL, then `"/" + [rootPath, core, path].join("/")`, then `"?" + params`. -/
def requestUrl (cfg : ClientConfig) (path params : String) : String :=
  makeHostUrl cfg.protocol cfg.host cfg.port cfg.user cfg.password
    ++ "/" ++ String.intercalate "/" [cfg.rootPath, cfg.core, path]
    ++ "?" ++ params

/-- Path constants fixed at construction (`this.SEARCH_PATH` is the configured
request handler, the rest are literals). -/
def SEARCH_PATH (cfg : ClientConfig) : String := cfg.requestHandler

def TERMS_PATH : String := "terms"

def SPELL_PATH : String := "spell"

def MLT_PATH : String := "mlt"

def UPDATE_PATH : String := "update"

def UPDATE_EXTRACT_PATH : String := "update/extract"

def PING_PATH : String := "admin/ping"

def SUGGEST_PATH : String := "suggest"

/-! ### The `querystring` module

`QueryString.stringify(obj, sep, eq)` percent-encodes each key and each
stringified primitive value and joins `key eq value` entries with `sep`.
Values are modelled as string/number/boolean primitives, the shapes the
client passes. -/

/-- A primitive value of a query-string object. -/
inductive QsVal where
  | str (s : String) : QsVal
  | num (n : Int) : QsVal
  | bool (b : Bool) : QsVal
  deriving Repr, DecidableEq

/-- Node `stringifyPrimitive`: how a primitive renders before escaping. -/
def stringifyPrimitive : QsVal → String
  | .str s => s
  | .num n => toString n
  | .bool b => if b then "true" else "false"

/-- Hexadecimal digit (uppercase), as Node percent-encoding emits. -/
def hexDigit (n : Nat) : Char :=
  if n < 10 then Char.ofNat (48 + n) else Char.ofNat (55 + n)

/-- Characters left unescaped by `querystring.escape`: ASCII alphanumerics
and `- . _ ~ ! * ( ) apostrophe` (the `encodeURIComponent` set). -/
def qsNoEscape (c : Char) : Bool :=
  (65 ≤ c.toNat && c.toNat ≤ 90) || (97 ≤ c.toNat && c.toNat ≤ 122) ||
  (48 ≤ c.toNat && c.toNat ≤ 57) ||
  c.toNat = 45 || c.toNat = 46 || c.toNat = 95 || c.toNat = 126 ||
  c.toNat = 33 || c.toNat = 42 || c.toNat = 40 || c.toNat = 41 || c.toNat = 39

/-- UTF-8 code units of one code point. -/
def utf8Bytes (c : Char) : List Nat :=
  let n := c.toNat
  if n < 128 then [n]
  else if n < 2048 then [192 + n / 64, 128 + n % 64]
  else if n < 65536 then [224 + n / 4096, 128 + (n / 64) % 64, 128 + n % 64]
  else [240 + n / 262144, 128 + (n / 4096) % 64, 128 + (n / 64) % 64, 128 + n % 64]

/-- Percent-encode one character as `querystring.escape` does. -/
def qsEscapeChar (c : Char) : String :=
  if qsNoEscape c then String.singleton c
  else String.join ((utf8Bytes c).map fun n =>
    "%" ++ String.singleton (hexDigit (n / 16)) ++ String.singleton (hexDigit (n % 16)))

/-- `querystring.escape`. -/
def qsEscape (s : String) : String :=
  String.join (s.data.map qsEscapeChar)

/-- `QueryString.stringify(pairs, sep, eq)` restricted to primitive values. -/
def qsStringify (pairs : List (String × QsVal)) (sep eq : String) : String :=
  String.intercalate sep
    (pairs.map fun p => qsEscape p.1 ++ eq ++ qsEscape (stringifyPrimitive p.2))

/-! ### Argument shapes and overload resolution -/

/-- The runtime shapes the middle `options` argument can take: absent
(`undefined`), a function, a string, or a plain options object. -/
inductive OptArg where
  | undefined : OptArg
  | func : OptArg
  | str (s : String) : OptArg
  | obj (pairs : List (String × QsVal)) : OptArg
  deriving Repr, DecidableEq

/-- JS falsiness of the `options` argument (`!options`). -/
def OptArg.falsy : OptArg → Bool
  | .undefined => true
  | .func => false
  | .str s => s = ""
  | .obj _ => false

/-- `_.isFunction(options)`. -/
def OptArg.isFunction : OptArg → Bool
  | .func => true
  | _ => false

/-- The default options substituted by overload resolution: `commit: true`. -/
def defaultOptions : OptArg := .obj [("commit", QsVal.bool true)]

/-- A call to a `(payload, options, callback)` method: how many arguments
the caller passed, the value of its middle argument (`undefined` when fewer
than two arguments were passed), and whether the third argument is a
function. -/
structure Call3 where
  argsLen : Nat
  options : OptArg
  callbackGiven : Bool
  deriving Repr, DecidableEq

/-- A call to the two-argument `updateExtract(options, callback)`. -/
structure Call2 where
  argsLen : Nat
  options : OptArg
  callbackGiven : Bool
  deriving Repr, DecidableEq

/-- Overload resolution in `update`:
`if (arguments.length < 3 && (!options || _.isFunction(options)))` then the
callback becomes the old `options` value and options default to
`commit: true`. Returns the resolved options and whether a callback
function is now in the callback slot. -/
def resolveUpdateArgs (c : Call3) : OptArg × Bool :=
  if c.argsLen < 3 && (c.options.falsy || c.options.isFunction) then
    (defaultOptions, c.options.isFunction)
  else
    (c.options, c.callbackGiven)

/-- Overload resolution in `delete` and `deleteByIds`:
`if (arguments.length < 3 && _.isFunction(options))` — unlike `update`,
only a function middle argument triggers the default. -/
def resolveDeleteArgs (c : Call3) : OptArg × Bool :=
  if c.argsLen < 3 && c.options.isFunction then
    (defaultOptions, true)
  else
    (c.options, c.callbackGiven)

/-! ### `_requestPost` / `_requestGet` request construction -/

/-- The `urlOptions` argument of `_requestPost` after overload resolution. -/
inductive UrlOpts where
  | str (s : String) : UrlOpts
  | obj (pairs : List (String × QsVal)) : UrlOpts
  | undefined : UrlOpts
  deriving Repr, DecidableEq

/-- The `params` computed by `_requestPost`: a string is used verbatim, an
object is stringified, anything else yields the empty string. -/
def urlOptionsParams : UrlOpts → String
  | .str s => s
  | .obj pairs => qsStringify pairs "&" "="
  | .undefined => ""

/-- Coercion of a resolved `options` value into the `urlOptions` dispatch:
`_.isObject` is true of functions, and a plain function has no enumerable
properties, so it stringifies like an empty object. -/
def OptArg.toUrlOpts : OptArg → UrlOpts
  | .str s => .str s
  | .obj ps => .obj ps
  | .func => .obj []
  | .undefined => .undefined

/-- What a public POST-family method hands to `_requestPost`. -/
structure PostRequest where
  path : String
  body : Json
  urlOptions : UrlOpts
  hasCallback : Bool

/-- The `query` argument of `_requestGet`: a `Query` builder instance
(carrying the string its `toString()` renders to), a raw string, or
anything else (which defaults to `q=*:*`). -/
inductive QueryArg where
  | builder (rendered : String) : QueryArg
  | str (s : String) : QueryArg
  | other : QueryArg
  deriving Repr, DecidableEq

/-- The `params` computed by `_requestGet`. -/
def requestGetParams : QueryArg → String
  | .builder r => r
  | .str s => s
  | .other => "q=*:*"

/-- The options object handed to the `fetch` transport. -/
structure FetchOptions where
  method : String
  headers : List (String × String)
  body : Option Json
  timeout : Option StrNum

/-- A fully assembled HTTP request together with the calling convention. -/
structure HttpRequest where
  url : String
  fetchOptions : FetchOptions
  hasCallback : Bool

/-- `Client.prototype._requestGet`. -/
def requestGet (cfg : ClientConfig) (path : String) (query : QueryArg)
    (hasCb : Bool) : HttpRequest :=
  { url := requestUrl cfg path (requestGetParams query)
    fetchOptions :=
      { method := "GET"
        headers := [("accept", "application/json; charset=utf-8")]
        body := none
        timeout := none }
    hasCallback := hasCb }

/-- `Client.prototype._requestPost` applied to what a public method built. -/
def requestPost (cfg : ClientConfig) (r : PostRequest) : HttpRequest :=
  { url := requestUrl cfg r.path (urlOptionsParams r.urlOptions)
    fetchOptions :=
      { method := "POST"
        headers := [("accept", "application/json; charset=utf-8"),
                    ("content-type", "application/json; charset=utf-8")]
        body := some r.body
        timeout := none }
    hasCallback := r.hasCallback }

/-! ### Public operations -/

/-- `Client.prototype.update(data, options, finalCallback)`. -/
def update (data : Json) (c : Call3) : PostRequest :=
  let r := resolveUpdateArgs c
  let bodyData :=
    if data.isArr then data
    else Json.obj [("add", Json.obj [("doc", data), ("overwrite", Json.bool true)])]
  { path := UPDATE_PATH, body := bodyData
    urlOptions := r.1.toUrlOpts, hasCallback := r.2 }

/-- The `query` argument of `delete`: the source distinguishes strings,
objects (stringified with separator `" AND "` and `":"`), and everything
else (empty query). -/
inductive DeleteArg where
  | str (s : String) : DeleteArg
  | obj (pairs : List (String × QsVal)) : DeleteArg
  | other : DeleteArg
  deriving Repr, DecidableEq

/-- `Client.prototype.delete(query, options, finalCallback)`. -/
def delete (query : DeleteArg) (c : Call3) : PostRequest :=
  let r := resolveDeleteArgs c
  let bodyQuery :=
    match query with
    | .str s => s
    | .obj pairs => qsStringify pairs " AND " ":"
    | .other => ""
  { path := UPDATE_PATH
    body := Json.obj [("delete", Json.obj [("query", Json.str bodyQuery)])]
    urlOptions := r.1.toUrlOpts, hasCallback := r.2 }

/-- `Client.prototype.deleteByIds(ids, options, finalCallback)`: throws
synchronously (modelled as `Except.error`) when `ids` is not an array. -/
def deleteByIds (ids : Json) (c : Call3) : Except String PostRequest :=
  let r := resolveDeleteArgs c
  match ids with
  | .arr xs =>
      .ok { path := UPDATE_PATH
            body := Json.obj [("delete", Json.arr (xs.map fun i => Json.obj [("id", i)]))]
            urlOptions := r.1.toUrlOpts, hasCallback := r.2 }
  | _ => .error "ids must be an array"

/-- JS property assignment on an object: an existing key is overwritten in
place, a new key is appended. -/
def jsSetProp (pairs : List (String × QsVal)) (k : String) (v : QsVal) :
    List (String × QsVal) :=
  if pairs.any (fun p => p.1 = k) then
    pairs.map (fun p => if p.1 = k then (k, v) else p)
  else pairs ++ [(k, v)]

/-- `Client.prototype.updateExtract(options, finalCallback)`: the default is
substituted only when the sole argument is a function; afterwards
`options.wt = "json"` is assigned unconditionally, which throws a
`TypeError` when `options` is `undefined` (modelled as `Except.error`),
mutates a caller-supplied object, is silently ignored on a string
primitive, and adds an enumerable property to a function object. -/
def updateExtract (c : Call2) : Except String PostRequest :=
  let r :=
    if c.argsLen < 2 && c.options.isFunction then (defaultOptions, true)
    else (c.options, c.callbackGiven)
  let bodyData :=
    Json.obj [("add", Json.obj [("doc", Json.null), ("overwrite", Json.bool true)])]
  match r.1 with
  | .undefined => .error "TypeError: Cannot set properties of undefined"
  | .str s =>
      .ok { path := UPDATE_EXTRACT_PATH, body := bodyData
            urlOptions := .str s, hasCallback := r.2 }
  | .obj ps =>
      .ok { path := UPDATE_EXTRACT_PATH, body := bodyData
            urlOptions := .obj (jsSetProp ps "wt" (QsVal.str "json"))
            hasCallback := r.2 }
  | .func =>
      .ok { path := UPDATE_EXTRACT_PATH, body := bodyData
            urlOptions := .obj [("wt", QsVal.str "json")], hasCallback := r.2 }

/-! ### `_callSolrServer` dispatch and delivery -/

/-- Effective timeout computed at the top of `_callSolrServer`:
`fetchOptions?.timeout || (process.env.SOLR_TIMEOUT || "20000")`. -/
def effectiveTimeout (fetchTimeout : Option StrNum)
    (envSolrTimeout : Option String) : StrNum :=
  let dflt := StrNum.str (jsOrStr envSolrTimeout "20000")
  match fetchTimeout with
  | some t => if t.truthy then t else dflt
  | none => dflt

/-- Possible outcomes of the one transport call a dispatch performs. -/
inductive FetchOutcome where
  | jsonBody (j : Json) : FetchOutcome
  | jsonFail (msg : String) : FetchOutcome
  | fetchFail (msg : String) : FetchOutcome

/-- The settled state of the promise built in `_callSolrServer`: the parsed
JSON on success; on a transport failure, a timeout, or a body that is not
JSON, the error message. -/
def dispatchResult : FetchOutcome → Except String Json
  | .jsonBody j => .ok j
  | .jsonFail m => .error m
  | .fetchFail m => .error m

/-- Arguments of the single callback invocation: `(null, json)` on success,
`(err.message)` — second argument `undefined` — on failure. -/
def callbackArgs : Except String Json → Option String × Option Json
  | .ok j => (none, some j)
  | .error m => (some m, none)

/-- The observable effect of one `_callSolrServer` call. -/
structure CallSolrResult where
  fetchCalls : Nat
  timeoutUsed : StrNum
  callbackInvocations : List (Option String × Option Json)
  returned : Option (Except String Json)

/-- `Client.prototype._callSolrServer(requestFullPath, fetchOptions,
finalCallback)`: one `fetch` with the effective timeout; if a callback
function was supplied it is attached to the promise and nothing is
returned, otherwise the promise is returned. -/
def callSolrServer (req : HttpRequest) (envSolrTimeout : Option String)
    (outcome : FetchOutcome) : CallSolrResult :=
  let timeout := effectiveTimeout req.fetchOptions.timeout envSolrTimeout
  let result := dispatchResult outcome
  if req.hasCallback then
    { fetchCalls := 1, timeoutUsed := timeout
      callbackInvocations := [callbackArgs result], returned := none }
  else
    { fetchCalls := 1, timeoutUsed := timeout
      callbackInvocations := [], returned := some result }

/-! ### End-to-end runs of the public operations -/

/-- One call to a public method of the client, with its arguments. -/
inductive OpCall where
  | search (query : QueryArg) (hasCb : Bool) : OpCall
  | terms (query : QueryArg) (hasCb : Bool) : OpCall
  | mlt (query : QueryArg) (hasCb : Bool) : OpCall
  | spell (query : QueryArg) (hasCb : Bool) : OpCall
  | suggest (query : QueryArg) (hasCb : Bool) : OpCall
  | ping (hasCb : Bool) : OpCall
  | update (data : Json) (c : Call3) : OpCall
  | updateExtract (c : Call2) : OpCall
  | delete (query : DeleteArg) (c : Call3) : OpCall
  | deleteByIds (ids : Json) (c : Call3) : OpCall
  | commit (hasCb : Bool) : OpCall
  | softCommit (hasCb : Bool) : OpCall

/-- The request a public method builds, or the message of a synchronous
throw that escapes before any request exists. -/
def buildRequest (cfg : ClientConfig) : OpCall → Except String HttpRequest
  | .search q cb => .ok (requestGet cfg (SEARCH_PATH cfg) q cb)
  | .terms q cb => .ok (requestGet cfg TERMS_PATH q cb)
  | .mlt q cb => .ok (requestGet cfg MLT_PATH q cb)
  | .spell q cb => .ok (requestGet cfg SPELL_PATH q cb)
  | .suggest q cb => .ok (requestGet cfg SUGGEST_PATH q cb)
  | .ping cb => .ok (requestGet cfg PING_PATH (.str "") cb)
  | .update data c => .ok (requestPost cfg (update data c))
  | .updateExtract c => (updateExtract c).map (requestPost cfg)
  | .delete q c => .ok (requestPost cfg (delete q c))
  | .deleteByIds ids c => (deleteByIds ids c).map (requestPost cfg)
  | .commit cb =>
      .ok (requestPost cfg
        { path := UPDATE_PATH, body := Json.obj []
          urlOptions := .obj [("commit", QsVal.bool true)], hasCallback := cb })
  | .softCommit cb =>
      .ok (requestPost cfg
        { path := UPDATE_PATH, body := Json.obj []
          urlOptions := .obj [("softCommit", QsVal.bool true)], hasCallback := cb })

/-- Everything the caller can observe from one public-method call. -/
structure OpRun where
  fetchCalls : Nat
  callbackInvocations : List (Option String × Option Json)
  promiseResult : Option (Except String Json)
  thrown : Option String

/-- Run one public-method call to completion against a given transport
outcome and environment. -/
def runOp (cfg : ClientConfig) (call : OpCall) (envSolrTimeout : Option String)
    (outcome : FetchOutcome) : OpRun :=
  match buildRequest cfg call with
  | .error m =>
      { fetchCalls := 0, callbackInvocations := [], promiseResult := none
        thrown := some m }
  | .ok req =>
      let r := callSolrServer req envSolrTimeout outcome
      { fetchCalls := r.fetchCalls, callbackInvocations := r.callbackInvocations
        promiseResult := r.returned, thrown := none }

/-! ### Helper lemmas -/

theorem intercalate_three (a b c : String) :
    String.intercalate "/" [a, b, c] = a ++ "/" ++ b ++ "/" ++ c := rfl

/-! ### Claims -/

/-- C1: For every public operation that reaches the single underlying
dispatch, exactly one transport call is performed; when a trailing
completion function was supplied it is invoked exactly once — with
`(null, result)` on success and with the error message as first argument on
failure — and nothing is returned; when no completion function was supplied
the returned promise settles with the same result or error of that same
single dispatch. -/
theorem dual_convention_single_dispatch (cfg : ClientConfig) (call : OpCall)
    (env : Option String) (o : FetchOutcome) (req : HttpRequest)
    (hreq : buildRequest cfg call = .ok req) :
    runOp cfg call env o =
      { fetchCalls := 1
        callbackInvocations :=
          if req.hasCallback then [callbackArgs (dispatchResult o)] else []
        promiseResult := if req.hasCallback then none else some (dispatchResult o)
        thrown := none } := by
  unfold runOp
  rw [hreq]
  unfold callSolrServer
  cases h : req.hasCallback <;> simp [h]

theorem dual_convention_single_dispatch_witness :
    runOp (mkClient {}) (.ping true) none (.jsonBody Json.null) =
      { fetchCalls := 1
        callbackInvocations := [(none, some Json.null)]
        promiseResult := none
        thrown := none } := by
  have h := dual_convention_single_dispatch (mkClient {}) (.ping true) none
    (.jsonBody Json.null) (requestGet (mkClient {}) PING_PATH (.str "") true) rfl
  simpa using h

/-- C2 counterexample: `deleteByIds` applied to a non-array with a single
argument fails, yet the failure reaches neither the callback channel nor a
promise rejection — it is thrown synchronously past the caller, and no
dispatch happens. This refutes the claim that every failure of every public
operation is delivered through exactly one of the two channels and that no
failure path throws synchronously. -/
theorem deleteByIds_nonarray_throw_escapes_both_channels :
    (runOp (mkClient {}) (.deleteByIds (Json.str "a") ⟨1, .undefined, false⟩) none
      (.jsonBody Json.null)).thrown = some "ids must be an array" ∧
    (runOp (mkClient {}) (.deleteByIds (Json.str "a") ⟨1, .undefined, false⟩) none
      (.jsonBody Json.null)).callbackInvocations = [] ∧
    (runOp (mkClient {}) (.deleteByIds (Json.str "a") ⟨1, .undefined, false⟩) none
      (.jsonBody Json.null)).promiseResult = none ∧
    (runOp (mkClient {}) (.deleteByIds (Json.str "a") ⟨1, .undefined, false⟩) none
      (.jsonBody Json.null)).fetchCalls = 0 :=
  ⟨rfl, rfl, rfl, rfl⟩

/-- C2 (amended): every failure of a dispatch that was actually performed is
delivered through exactly one of the two channels — the callback's
error-first parameter when a callback was supplied, rejection of the
returned promise when it was not — and is never thrown; however,
`deleteByIds` applied to a non-array throws its argument error
synchronously before any dispatch, so that failure reaches neither
channel. -/
theorem failure_delivery_channels :
    (∀ (cfg : ClientConfig) (call : OpCall) (env : Option String)
        (o : FetchOutcome) (req : HttpRequest) (m : String),
        buildRequest cfg call = .ok req → dispatchResult o = .error m →
        (runOp cfg call env o).thrown = none ∧
        (req.hasCallback = true →
          (runOp cfg call env o).callbackInvocations = [(some m, none)] ∧
          (runOp cfg call env o).promiseResult = none) ∧
        (req.hasCallback = false →
          (runOp cfg call env o).callbackInvocations = [] ∧
          (runOp cfg call env o).promiseResult = some (.error m))) ∧
    (∀ (cfg : ClientConfig) (c : Call3) (env : Option String)
        (o : FetchOutcome) (ids : Json), ids.isArr = false →
        (runOp cfg (.deleteByIds ids c) env o).thrown = some "ids must be an array" ∧
        (runOp cfg (.deleteByIds ids c) env o).fetchCalls = 0 ∧
        (runOp cfg (.deleteByIds ids c) env o).callbackInvocations = [] ∧
        (runOp cfg (.deleteByIds ids c) env o).promiseResult = none) := by
  constructor
  · intro cfg call env o req m hreq herr
    unfold runOp
    rw [hreq]
    unfold callSolrServer
    cases h : req.hasCallback <;> simp [h, herr, callbackArgs]
  · intro cfg c env o ids hids
    have hreq : buildRequest cfg (.deleteByIds ids c) = .error "ids must be an array" := by
      cases ids <;> simp_all [buildRequest, deleteByIds, Json.isArr, Except.map]
    unfold runOp
    rw [hreq]
    exact ⟨rfl, rfl, rfl, rfl⟩

theorem failure_delivery_channels_witness :
    (runOp (mkClient {}) (.ping true) none (.fetchFail "boom")).callbackInvocations
      = [(some "boom", none)] ∧
    (runOp (mkClient {}) (.deleteByIds (Json.num 7) ⟨1, .undefined, false⟩) none
      (.jsonBody Json.null)).fetchCalls = 0 := by
  constructor
  · exact ((failure_delivery_channels.1 (mkClient {}) (.ping true) none
      (.fetchFail "boom") (requestGet (mkClient {}) PING_PATH (.str "") true)
      "boom" rfl rfl).2.1 rfl).1
  · exact (failure_delivery_channels.2 (mkClient {}) ⟨1, .undefined, false⟩ none
      (.jsonBody Json.null) (Json.num 7) rfl).2.1

/-- C3 counterexample: `delete(query)` and `deleteByIds(ids)` called with the
options argument absent do not fall back to the default — the resolved
options stay `undefined` and the URL options string sent is empty, not
`commit=true`. -/
theorem delete_absent_options_sends_empty_params :
    urlOptionsParams (delete (.str "id:1") ⟨1, .undefined, false⟩).urlOptions = "" ∧
    urlOptionsParams (delete (.str "id:1") ⟨1, .undefined, false⟩).urlOptions ≠ "commit=true" ∧
    (∃ req, deleteByIds (Json.arr [Json.str "a"]) ⟨1, .undefined, false⟩ = .ok req ∧
      urlOptionsParams req.urlOptions = "" ∧
      urlOptionsParams req.urlOptions ≠ "commit=true") :=
  ⟨rfl, by decide, ⟨_, rfl, rfl, by decide⟩⟩

/-- C3 (amended): for `update`, whenever fewer than three arguments are
passed and the middle argument is absent or a function, that function (when
present) becomes the callback and the options fall back to the default
`commit: true`; for `delete` and `deleteByIds` the fallback happens only
when the middle argument is a function — when the options argument is
absent these two operations keep `undefined` options and send an empty URL
options string instead of `commit=true`. -/
theorem middle_argument_resolution :
    (∀ (data : Json) (c : Call3), c.argsLen < 3 →
      (c.options = .undefined ∨ c.options = .func) →
      urlOptionsParams (update data c).urlOptions = "commit=true" ∧
      (update data c).hasCallback = c.options.isFunction) ∧
    (∀ (q : DeleteArg) (c : Call3), c.argsLen < 3 → c.options = .func →
      urlOptionsParams (delete q c).urlOptions = "commit=true" ∧
      (delete q c).hasCallback = true) ∧
    (∀ (ids : List Json) (c : Call3), c.argsLen < 3 → c.options = .func →
      ∃ req, deleteByIds (Json.arr ids) c = .ok req ∧
        urlOptionsParams req.urlOptions = "commit=true" ∧ req.hasCallback = true) ∧
    (∀ (q : DeleteArg) (c : Call3), c.options = .undefined →
      (delete q c).urlOptions = .undefined ∧
      urlOptionsParams (delete q c).urlOptions = "") ∧
    (∀ (ids : List Json) (c : Call3), c.options = .undefined →
      ∃ req, deleteByIds (Json.arr ids) c = .ok req ∧
        req.urlOptions = .undefined ∧ urlOptionsParams req.urlOptions = "") := by
  refine ⟨?_, ?_, ?_, ?_, ?_⟩
  · intro data c hlen hopt
    rcases hopt with h | h <;>
      simp [update, resolveUpdateArgs, h, hlen, OptArg.falsy, OptArg.isFunction,
        defaultOptions, OptArg.toUrlOpts, urlOptionsParams] <;> decide
  · intro q c hlen hopt
    simp [delete, resolveDeleteArgs, hopt, hlen, OptArg.isFunction,
      defaultOptions, OptArg.toUrlOpts, urlOptionsParams]
    decide
  · intro ids c hlen hopt
    refine ⟨_, rfl, ?_, ?_⟩ <;>
      · simp [resolveDeleteArgs, hopt, hlen, OptArg.isFunction,
          defaultOptions, OptArg.toUrlOpts, urlOptionsParams]
        try decide
  · intro q c hopt
    have : (resolveDeleteArgs c).1 = .undefined := by
      simp [resolveDeleteArgs, hopt, OptArg.isFunction]
    constructor <;> simp [delete, this, OptArg.toUrlOpts, urlOptionsParams]
  · intro ids c hopt
    have : (resolveDeleteArgs c).1 = .undefined := by
      simp [resolveDeleteArgs, hopt, OptArg.isFunction]
    refine ⟨_, rfl, ?_, ?_⟩ <;> simp [this, OptArg.toUrlOpts, urlOptionsParams]

theorem middle_argument_resolution_witness :
    urlOptionsParams (update Json.null ⟨1, .undefined, false⟩).urlOptions = "commit=true" ∧
    urlOptionsParams (delete (.str "x") ⟨2, .func, false⟩).urlOptions = "commit=true" ∧
    (delete (.str "x") ⟨1, .undefined, false⟩).urlOptions = .undefined := by
  refine ⟨?_, ?_, ?_⟩
  · exact (middle_argument_resolution.1 Json.null ⟨1, .undefined, false⟩
      (by decide) (Or.inl rfl)).1
  · exact (middle_argument_resolution.2.1 (.str "x") ⟨2, .func, false⟩
      (by decide) rfl).1
  · exact (middle_argument_resolution.2.2.2.1 (.str "x") ⟨1, .undefined, false⟩ rfl).1

/-- C4: `deleteByIds` applied to an array produces the POST body
`delete : [ {id}, {id}, ... ]` with one id object per element, in order;
applied to any non-array it fails immediately with the argument error
"ids must be an array", before any dispatch is attempted. -/
theorem deleteByIds_body_and_guard (ids : Json) (c : Call3) (cfg : ClientConfig)
    (env : Option String) (o : FetchOutcome) :
    (∀ xs, ids = Json.arr xs →
      ∃ req, deleteByIds ids c = .ok req ∧
        req.body = Json.obj
          [("delete", Json.arr (xs.map fun i => Json.obj [("id", i)]))] ∧
        req.path = UPDATE_PATH) ∧
    (ids.isArr = false →
      deleteByIds ids c = .error "ids must be an array" ∧
      (runOp cfg (.deleteByIds ids c) env o).fetchCalls = 0) := by
  constructor
  · rintro xs rfl
    exact ⟨_, rfl, rfl, rfl⟩
  · intro hids
    have herr : deleteByIds ids c = .error "ids must be an array" := by
      cases ids <;> simp_all [deleteByIds, Json.isArr]
    refine ⟨herr, ?_⟩
    unfold runOp
    have : buildRequest cfg (.deleteByIds ids c) = .error "ids must be an array" := by
      simp [buildRequest, herr, Except.map]
    rw [this]

theorem deleteByIds_body_and_guard_witness :
    (∃ req,
      deleteByIds (Json.arr [Json.str "a", Json.str "b"]) ⟨1, .undefined, false⟩ = .ok req ∧
      req.body = Json.obj [("delete", Json.arr
        [Json.obj [("id", Json.str "a")], Json.obj [("id", Json.str "b")]])] ∧
      req.path = UPDATE_PATH) ∧
    deleteByIds (Json.str "a") ⟨1, .undefined, false⟩ = .error "ids must be an array" := by
  constructor
  · exact (deleteByIds_body_and_guard (Json.arr [Json.str "a", Json.str "b"])
      ⟨1, .undefined, false⟩ (mkClient {}) none (.jsonBody Json.null)).1
      [Json.str "a", Json.str "b"] rfl
  · exact ((deleteByIds_body_and_guard (Json.str "a") ⟨1, .undefined, false⟩
      (mkClient {}) none (.jsonBody Json.null)).2 rfl).1

/-- C5: the timeout handed to the transport follows the precedence
per-call fetch option (when set to a truthy value) over the
`SOLR_TIMEOUT` environment value (when set and non-empty, read per call)
over the `"20000"` fallback; the fetch options assembled by the public GET
and POST paths carry no per-call timeout, so their dispatches use the
environment value or the 20000 ms fallback. -/
theorem timeout_precedence (t : StrNum) (env : Option String) :
    (t.truthy = true → ∀ e, effectiveTimeout (some t) e = t) ∧
    (∀ s, env = some s → s ≠ "" → effectiveTimeout none env = .str s) ∧
    (env = none ∨ env = some "" → effectiveTimeout none env = .str "20000") ∧
    (∀ (cfg : ClientConfig) (path : String) (q : QueryArg) (cb : Bool)
        (o : FetchOutcome),
      (requestGet cfg path q cb).fetchOptions.timeout = none ∧
      (callSolrServer (requestGet cfg path q cb) env o).timeoutUsed =
        .str (jsOrStr env "20000")) ∧
    (∀ (cfg : ClientConfig) (r : PostRequest) (o : FetchOutcome),
      (requestPost cfg r).fetchOptions.timeout = none ∧
      (callSolrServer (requestPost cfg r) env o).timeoutUsed =
        .str (jsOrStr env "20000")) := by
  refine ⟨?_, ?_, ?_, ?_, ?_⟩
  · intro ht e
    simp [effectiveTimeout, ht]
  · rintro s rfl hs
    simp [effectiveTimeout, jsOrStr, hs]
  · rintro (rfl | rfl) <;> simp [effectiveTimeout, jsOrStr]
  · intro cfg path q cb o
    refine ⟨rfl, ?_⟩
    cases cb <;> simp [callSolrServer, requestGet, effectiveTimeout]
  · intro cfg r o
    refine ⟨rfl, ?_⟩
    cases h : r.hasCallback <;> simp [callSolrServer, requestPost, effectiveTimeout, h]

theorem timeout_precedence_witness :
    effectiveTimeout (some (.num 5000)) (some "1000") = .num 5000 ∧
    effectiveTimeout none (some "1000") = .str "1000" ∧
    effectiveTimeout none none = .str "20000" := by
  refine ⟨?_, ?_, ?_⟩
  · exact (timeout_precedence (.num 5000) (some "1000")).1 (by decide) (some "1000")
  · exact (timeout_precedence (.num 5000) (some "1000")).2.1 "1000" rfl (by decide)
  · exact (timeout_precedence (.num 5000) none).2.2.1 (Or.inl rfl)

/-- C6: `update(data)` with no options and no callback wraps a non-array
document as `add : ( doc : data, overwrite : true )`, sends `commit=true`
as the URL options, and sends an array argument verbatim as the POST
body. -/
theorem update_default_body_and_commit (data : Json) :
    (update data ⟨1, .undefined, false⟩).body =
      (if data.isArr then data
       else Json.obj [("add", Json.obj [("doc", data), ("overwrite", Json.bool true)])]) ∧
    urlOptionsParams (update data ⟨1, .undefined, false⟩).urlOptions = "commit=true" ∧
    (update data ⟨1, .undefined, false⟩).path = UPDATE_PATH ∧
    (update data ⟨1, .undefined, false⟩).hasCallback = false := by
  exact ⟨rfl, rfl, rfl, rfl⟩

/-- C7: for every configuration the assembled request URL is
`protocol ++ "://" ++ auth ++ host ++ (":" ++ port when port is truthy) ++
"/" ++ rootPath ++ "/" ++ core ++ "/" ++ path ++ "?" ++ params` (the core
segment may be empty), and every constructor option left unset falls back
to its documented default: host 127.0.0.1, port 8983, rootPath solr,
protocol http, requestHandler select. -/
theorem request_url_shape_and_defaults :
    (∀ (cfg : ClientConfig) (path params : String),
      requestUrl cfg path params =
        cfg.protocol ++ "://" ++ authSegment cfg.user cfg.password ++ cfg.host ++
        (if cfg.port.truthy then ":" ++ cfg.port.render else "") ++
        "/" ++ cfg.rootPath ++ "/" ++ cfg.core ++ "/" ++ path ++ "?" ++ params) ∧
    (∀ opts : ClientOptions, opts.host = none → (mkClient opts).host = "127.0.0.1") ∧
    (∀ opts : ClientOptions, opts.port = none → (mkClient opts).port = .str "8983") ∧
    (∀ opts : ClientOptions, opts.rootPath = none → (mkClient opts).rootPath = "solr") ∧
    (∀ opts : ClientOptions, opts.protocol = none → (mkClient opts).protocol = "http") ∧
    (∀ opts : ClientOptions, opts.requestHandler = none →
      (mkClient opts).requestHandler = "select" ∧
      SEARCH_PATH (mkClient opts) = "select") := by
  refine ⟨?_, ?_, ?_, ?_, ?_, ?_⟩
  · intro cfg path params
    cases h : cfg.port.truthy <;>
      simp [requestUrl, makeHostUrl, h, intercalate_three, String.append_assoc]
  · intro opts h
    simp [mkClient, jsOrStr, h]
  · intro opts h
    simp [mkClient, h]
  · intro opts h
    simp [mkClient, jsOrStr, h]
  · intro opts h
    simp [mkClient, jsOrStr, h]
  · intro opts h
    constructor <;> simp [mkClient, SEARCH_PATH, jsOrStr, h]

theorem request_url_shape_and_defaults_witness :
    requestUrl (mkClient {}) "select" "q=*:*" =
      "http" ++ "://" ++ "" ++ "127.0.0.1" ++ (":" ++ "8983") ++
      "/" ++ "solr" ++ "/" ++ "" ++ "/" ++ "select" ++ "?" ++ "q=*:*" ∧
    (mkClient {}).host = "127.0.0.1" ∧
    (mkClient {}).port = .str "8983" ∧
    (mkClient {}).rootPath = "solr" ∧
    (mkClient {}).protocol = "http" ∧
    (mkClient {}).requestHandler = "select" := by
  refine ⟨?_, ?_, ?_, ?_, ?_, ?_⟩
  · have h := request_url_shape_and_defaults.1 (mkClient {}) "select" "q=*:*"
    simpa using h
  · exact request_url_shape_and_defaults.2.1 {} rfl
  · exact request_url_shape_and_defaults.2.2.1 {} rfl
  · exact request_url_shape_and_defaults.2.2.2.1 {} rfl
  · exact request_url_shape_and_defaults.2.2.2.2.1 {} rfl
  · exact (request_url_shape_and_defaults.2.2.2.2.2 {} rfl).1

/-- C8: the host URL always has the form
`protocol ++ "://" ++ auth ++ host ++ optional port`, where the `auth`
segment is `user ++ ":" ++ password ++ "@"` exactly when both user and
password were set (truthy) at construction, and is empty — neither
credential appears — whenever at least one of the two is missing. -/
theorem auth_iff_both_credentials (opts : ClientOptions) :
    makeHostUrl (mkClient opts).protocol (mkClient opts).host (mkClient opts).port
        (mkClient opts).user (mkClient opts).password =
      (mkClient opts).protocol ++ "://" ++
      authSegment (mkClient opts).user (mkClient opts).password ++
      (mkClient opts).host ++
      (if (mkClient opts).port.truthy then ":" ++ (mkClient opts).port.render else "") ∧
    (optTruthy opts.user = true → optTruthy opts.password = true →
      authSegment (mkClient opts).user (mkClient opts).password =
        opts.user.getD "" ++ ":" ++ opts.password.getD "" ++ "@") ∧
    ((optTruthy opts.user = true ∧ optTruthy opts.password = true → False) →
      authSegment (mkClient opts).user (mkClient opts).password = "") := by
  refine ⟨?_, ?_, ?_⟩
  · cases h : (mkClient opts).port.truthy <;>
      simp [makeHostUrl, h, String.append_assoc]
  · intro hu hp
    have hb : bothCreds opts.user opts.password = true := by
      simp [bothCreds, hu, hp]
    simp [mkClient, authSegment, hb]
  · intro hno
    have hb : bothCreds opts.user opts.password = false := by
      cases hu : optTruthy opts.user <;> cases hp : optTruthy opts.password <;>
        simp_all [bothCreds]
    have h1 : (mkClient opts).user = none := by simp [mkClient, hb]
    have h2 : (mkClient opts).password = none := by simp [mkClient, hb]
    rw [h1, h2]
    rfl

theorem auth_iff_both_credentials_witness :
    authSegment (mkClient { user := some "u", password := some "p" }).user
      (mkClient { user := some "u", password := some "p" }).password = "u:p@" ∧
    authSegment (mkClient { user := some "u" }).user
      (mkClient { user := some "u" }).password = "" := by
  constructor
  · exact (auth_iff_both_credentials
      { user := some "u", password := some "p" }).2.1 (by decide) (by decide)
  · exact (auth_iff_both_credentials { user := some "u" }).2.2 (by decide)

/-- C9: `delete` wraps its computed query in the body
`delete : ( query : ... )`; a string query is sent unchanged, an object
query becomes its escaped `key:value` pairs joined by `" AND "`, and
anything else becomes the empty query; in particular an object with one
field renders as `field:value` and one with two fields as
`f1:v1 AND f2:v2`. -/
theorem delete_query_body (q : DeleteArg) (c : Call3) :
    (delete q c).body =
      Json.obj [("delete", Json.obj [("query", Json.str
        (match q with
         | .str s => s
         | .obj pairs => String.intercalate " AND "
             (pairs.map fun p => qsEscape p.1 ++ ":" ++ qsEscape (stringifyPrimitive p.2))
         | .other => ""))])] ∧
    (delete (.obj [("field", QsVal.str "value")]) c).body =
      Json.obj [("delete", Json.obj [("query", Json.str "field:value")])] ∧
    (delete (.obj [("f1", QsVal.str "v1"), ("f2", QsVal.str "v2")]) c).body =
      Json.obj [("delete", Json.obj [("query", Json.str "f1:v1 AND f2:v2")])] := by
  refine ⟨?_, rfl, rfl⟩
  cases q <;> rfl

/-- C10: `updateExtract` called with no arguments — or with any `undefined`
options argument — throws a TypeError synchronously (the forced
`wt = "json"` assignment dereferences `undefined`), so no request is built
and no dispatch happens; and when the caller supplies an options object,
that object itself is mutated: its `wt` property is forced to `"json"` in
the URL options that are sent. -/
theorem updateExtract_typeerror_and_mutation (cfg : ClientConfig)
    (env : Option String) (o : FetchOutcome) :
    updateExtract ⟨0, .undefined, false⟩ =
      .error "TypeError: Cannot set properties of undefined" ∧
    (runOp cfg (.updateExtract ⟨0, .undefined, false⟩) env o).fetchCalls = 0 ∧
    (runOp cfg (.updateExtract ⟨0, .undefined, false⟩) env o).thrown =
      some "TypeError: Cannot set properties of undefined" ∧
    (∀ c : Call2, c.options = .undefined →
      updateExtract c = .error "TypeError: Cannot set properties of undefined") ∧
    (∀ (ps : List (String × QsVal)) (c : Call2), c.options = .obj ps →
      ∃ req, updateExtract c = .ok req ∧
        req.urlOptions = .obj (jsSetProp ps "wt" (QsVal.str "json"))) := by
  refine ⟨rfl, rfl, rfl, ?_, ?_⟩
  · intro c hopt
    simp [updateExtract, hopt, OptArg.isFunction]
  · intro ps c hopt
    have h : updateExtract c = .ok
        { path := UPDATE_EXTRACT_PATH
          body := Json.obj
            [("add", Json.obj [("doc", Json.null), ("overwrite", Json.bool true)])]
          urlOptions := .obj (jsSetProp ps "wt" (QsVal.str "json"))
          hasCallback := c.callbackGiven } := by
      simp [updateExtract, hopt, OptArg.isFunction]
    exact ⟨_, h, rfl⟩

theorem updateExtract_typeerror_and_mutation_witness :
    updateExtract ⟨2, .undefined, true⟩ =
      .error "TypeError: Cannot set properties of undefined" ∧
    (∃ req, updateExtract ⟨1, .obj [("commit", QsVal.bool false)], false⟩ = .ok req ∧
      req.urlOptions = .obj [("commit", QsVal.bool false), ("wt", QsVal.str "json")]) := by
  constructor
  · exact (updateExtract_typeerror_and_mutation (mkClient {}) none
      (.jsonBody Json.null)).2.2.2.1 ⟨2, .undefined, true⟩ rfl
  · obtain ⟨req, h1, h2⟩ := (updateExtract_typeerror_and_mutation (mkClient {})
      none (.jsonBody Json.null)).2.2.2.2 [("commit", QsVal.bool false)]
      ⟨1, .obj [("commit", QsVal.bool false)], false⟩ rfl
    exact ⟨req, h1, by simpa [jsSetProp] using h2⟩

end SolrNode
